import Mathlib

/-!
Verification of `endgame/exposure_via_resource_policies/iam.py` (the IAM
role resource kind of the endgame policy-mutation engine) against its
specification.

The file shallowly embeds the Python source:
* records (`Statement`, `Policy`, `PolicyDocument`, `ListResourcesResponse`,
  `ResponseGetRbp`, `ResponseMessage`) mirror the Python value objects;
* the boto3 client is modelled by passing the provider's outcome for each
  call as an explicit argument (`GetRoleResult`, `UpdateAssumeRolePolicyResult`,
  a list of result pages for pagination);
* logging is modelled by returning the list of emitted log events;
* Python dictionary `.get` access is modelled with `Option`, and the
  `AttributeError` that `None.startswith` raises is modelled with `Except`.
-/

/-- Log levels used by the module (`logger.debug`, `logger.critical`). -/
inductive LogLevel where
  | debug
  | critical
deriving Repr, DecidableEq

/-- One emitted log event: level and message text. -/
structure LogEvent where
  level : LogLevel
  msg : String
deriving Repr, DecidableEq

/-- Modelled from the spec: one statement of an access-control document
(`endgame/shared/policy_document.py` is not part of the sources): effect,
principal, action, optional resource block, optional condition block.
The principal is kept as the identifier string placed in the principal
block (or, for the account-id quirk, the bare account identifier). -/
structure Statement where
  effect : String
  principal : String
  action : String
  resource : Option String
  condition : Option String
deriving Repr, DecidableEq

/-- The wire shape of a policy document as returned by the provider:
a version and a statement list. -/
structure Policy where
  version : String
  statement : List Statement
deriving Repr, DecidableEq

/-- Modelled from the spec: `endgame.shared.constants.get_empty_policy`
(not part of the sources) returns a structurally valid empty document:
current version, no statements. -/
def getEmptyPolicy : Policy :=
  { version := "2012-10-17", statement := [] }

/-- Modelled from the spec: `endgame.shared.policy_document.PolicyDocument`
(not part of the sources): the parsed document plus the behavioral flags the
constructor receives (`iam.py` lines 51-58 passes the instance's flags). -/
structure PolicyDocument where
  policy : Policy
  service : String
  override_action : Option String
  include_resource_block : Bool
  override_resource_block : Option String
  override_account_id_instead_of_principal : Bool
deriving Repr, DecidableEq

/-- Modelled from the spec: the single new statement grant injection builds
(spec section 4.3 step 1-2): effect allow; principal = the evil principal,
or the bare account identifier when the account-id flag is set; action =
`override_action` when set, else a wildcard over the document's service
namespace; a resource block naming the instance's arn exactly when
`include_resource_block` is true. -/
def newGrantStatement (doc : PolicyDocument) (evilPrincipal : String)
    (accountIdOfEvil : String) (arn : String) : Statement :=
  { effect := "Allow"
    principal :=
      if doc.override_account_id_instead_of_principal then accountIdOfEvil
      else evilPrincipal
    action :=
      match doc.override_action with
      | some a => a
      | none => doc.service ++ ":*"
    resource := if doc.include_resource_block then some arn else none
    condition := none }

/-- Modelled from the spec: the grant-injection algorithm of
`endgame.shared.policy_document.PolicyDocument` (not part of the sources),
spec section 4.3 step 3: append the new statement to the existing statement
list, touching nothing else. -/
def injectGrant (doc : PolicyDocument) (evilPrincipal : String)
    (accountIdOfEvil : String) (arn : String) : PolicyDocument :=
  { doc with
      policy :=
        { doc.policy with
            statement :=
              doc.policy.statement ++
                [newGrantStatement doc evilPrincipal accountIdOfEvil arn] } }

/-- `ResponseGetRbp` (`endgame.shared.response_message`): the parsed policy
document and the success flag. -/
structure ResponseGetRbp where
  policy_document : PolicyDocument
  success : Bool
deriving Repr, DecidableEq

/-- `ResponseMessage` (`endgame.shared.response_message`): the audit record
of a single mutation attempt, with the fields `iam.py` lines 73-76 fills. -/
structure ResponseMessage where
  message : String
  operation : String
  success : Bool
  evil_principal : String
  victim_resource_arn : String
  original_policy : Policy
  updated_policy : Policy
  resource_type : String
  resource_name : String
  service : String
deriving Repr, DecidableEq

/-- The provider outcome of `client.get_role`: either the role's
`AssumeRolePolicyDocument`, the distinguishable not-found error
(`NoSuchEntityException`), or any other `ClientError`. -/
inductive GetRoleResult where
  | ok (assumeRolePolicyDocument : Policy)
  | noSuchEntity
  | clientError (msg : String)
deriving Repr, DecidableEq

/-- The provider outcome of `client.update_assume_role_policy`: accepted,
or rejected with the provider's error text. -/
inductive UpdateAssumeRolePolicyResult where
  | ok
  | clientError (msg : String)
deriving Repr, DecidableEq

/-- `IAMRole` (`iam.py` lines 17-34): identity fields and behavioral flags.
`include_resource_block` and `override_action` are set by `__init__` itself;
`override_resource_block` and `override_account_id_instead_of_principal`
are stored by the parent `ResourceType.__init__` (not part of the sources),
modelled from the spec as construction-time values, and `original_policy`
is the policy as read, retained by the parent for audit. -/
structure IAMRole where
  service : String
  resource_type : String
  region : String
  current_account_id : String
  name : String
  include_resource_block : Bool
  override_action : Option String
  override_resource_block : Option String
  override_account_id_instead_of_principal : Bool
  original_policy : Policy
deriving Repr, DecidableEq

/-- `IAMRole.__init__` (`iam.py` lines 18-30): fixes service `iam`, resource
type `role`, `include_resource_block = False` and
`override_action = "sts:AssumeRole"`; the parent-supplied values for the two
remaining flags and the retained original policy are passed through. -/
def IAMRole.init (name region current_account_id : String)
    (parent_override_resource_block : Option String)
    (parent_override_account_id_instead_of_principal : Bool)
    (original_policy : Policy) : IAMRole :=
  { service := "iam"
    resource_type := "role"
    region := region
    current_account_id := current_account_id
    name := name
    include_resource_block := false
    override_action := some "sts:AssumeRole"
    override_resource_block := parent_override_resource_block
    override_account_id_instead_of_principal :=
      parent_override_account_id_instead_of_principal
    original_policy := original_policy }

/-- `IAMRole.arn` (`iam.py` lines 32-34). -/
def IAMRole.arn (r : IAMRole) : String :=
  "arn:aws:" ++ r.service ++ "::" ++ r.current_account_id ++ ":" ++
    r.resource_type ++ "/" ++ r.name

/-- `IAMRole._get_rbp` (`iam.py` lines 36-60), with the provider's outcome
passed in and the emitted log events returned. The method assigns nothing
to `self`, so the returned state is the input state. The `PolicyDocument`
is constructed with the instance's flags exactly as lines 51-58 do. -/
def IAMRole.get_rbp (r : IAMRole) (provider : GetRoleResult) :
    IAMRole × ResponseGetRbp × List LogEvent :=
  let debugEvent : LogEvent :=
    { level := LogLevel.debug
      msg := "Getting resource policy for " ++ r.arn }
  let outcome : Policy × Bool × List LogEvent :=
    match provider with
    | GetRoleResult.ok p => (p, true, [debugEvent])
    | GetRoleResult.noSuchEntity =>
        (getEmptyPolicy, false,
         [debugEvent,
          { level := LogLevel.critical
            msg := "There is no resource with the name " ++ r.name }])
    | GetRoleResult.clientError _ => (getEmptyPolicy, false, [debugEvent])
  let policy_document : PolicyDocument :=
    { policy := outcome.1
      service := r.service
      override_action := r.override_action
      include_resource_block := r.include_resource_block
      override_resource_block := r.override_resource_block
      override_account_id_instead_of_principal :=
        r.override_account_id_instead_of_principal }
  (r, { policy_document := policy_document, success := outcome.2.1 },
   outcome.2.2)

/-- `IAMRole.set_rbp` (`iam.py` lines 62-77), with the provider's outcome
passed in and the emitted log events returned. The method assigns nothing
to `self`, so the returned state is the input state. -/
def IAMRole.set_rbp (r : IAMRole) (evil_policy : Policy)
    (provider : UpdateAssumeRolePolicyResult) :
    IAMRole × ResponseMessage × List LogEvent :=
  let debugEvent : LogEvent :=
    { level := LogLevel.debug
      msg := "Setting resource policy for " ++ r.arn }
  let outcome : String × Bool × List LogEvent :=
    match provider with
    | UpdateAssumeRolePolicyResult.ok => ("success", true, [debugEvent])
    | UpdateAssumeRolePolicyResult.clientError msg =>
        (msg, false, [debugEvent, { level := LogLevel.critical, msg := msg }])
  let response_message : ResponseMessage :=
    { message := outcome.1
      operation := "set_rbp"
      success := outcome.2.1
      evil_principal := ""
      victim_resource_arn := r.arn
      original_policy := r.original_policy
      updated_policy := evil_policy
      resource_type := r.resource_type
      resource_name := r.name
      service := r.service }
  (r, response_message, outcome.2.2)

/-- `ListResourcesResponse` (`endgame.shared.list_resources_response`): one
record per discovered resource, with the fields `iam.py` lines 103-105
fills. `arn` and `name` are `Option` because the Python code feeds them
from dictionary `.get`, which yields `None` for an absent key. -/
structure ListResourcesResponse where
  service : String
  account_id : String
  arn : Option String
  region : String
  resource_type : String
  name : Option String
deriving Repr, DecidableEq

/-- One raw role descriptor of a `list_roles` page, as the code reads it:
`role.get("Path")`, `role.get("Arn")`, `role.get("RoleName")`, each absent
when the listed entry is malformed. -/
structure RoleEntry where
  path : Option String
  arn : Option String
  roleName : Option String
deriving Repr, DecidableEq

/-- The Python runtime error enumeration can raise: `path.startswith(...)`
on a `None` path raises `AttributeError`. -/
inductive PyError where
  | attributeError
deriving Repr, DecidableEq

/-- `IAMRoles` (`iam.py` lines 80-84): the kind-level catalog, holding the
account and region supplied at construction together with the kind tokens. -/
structure IAMRoles where
  service : String
  resource_type : String
  current_account_id : String
  region : String
deriving Repr, DecidableEq

/-- `IAMRoles.__init__` (`iam.py` lines 81-84). -/
def IAMRoles.init (current_account_id region : String) : IAMRoles :=
  { service := "iam"
    resource_type := "role"
    current_account_id := current_account_id
    region := region }

/-- The record built for one kept role entry (`iam.py` lines 103-105):
`service`, `account_id`, `region`, `resource_type` come from the catalog
object, `arn` and `name` verbatim from the listed entry. -/
def IAMRoles.toResponse (c : IAMRoles) (role : RoleEntry) :
    ListResourcesResponse :=
  { service := c.service
    account_id := c.current_account_id
    arn := role.arn
    region := c.region
    resource_type := c.resource_type
    name := role.roleName }

/-- The body of the inner loop of `IAMRoles.resources` for one entry
(`iam.py` lines 96-106): read `Path` (raising `AttributeError` when the
entry has none, since `None.startswith` fails), skip service-linked roles
whose path starts with `/aws-service-role/`, otherwise build the record. -/
def IAMRoles.processRole (c : IAMRoles) (role : RoleEntry) :
    Except PyError (Option ListResourcesResponse) :=
  match role.path with
  | none => Except.error PyError.attributeError
  | some p =>
      if p.startsWith "/aws-service-role/" then Except.ok none
      else Except.ok (some (c.toResponse role))

/-- The two nested loops of `IAMRoles.resources` (`iam.py` lines 93-106),
accumulating kept records in order; a raised error aborts the whole run. -/
def IAMRoles.resourcesLoop (c : IAMRoles) :
    List RoleEntry → Except PyError (List ListResourcesResponse)
  | [] => Except.ok []
  | role :: rest =>
      match c.processRole role with
      | Except.error e => Except.error e
      | Except.ok none => c.resourcesLoop rest
      | Except.ok (some x) =>
          match c.resourcesLoop rest with
          | Except.error e => Except.error e
          | Except.ok xs => Except.ok (x :: xs)

/-- `IAMRoles.resources` (`iam.py` lines 86-107): iterate every page of the
paginator, then every role of the page. The pages the paginator yields are
passed in as `pages`; iterating page by page and role by role processes
exactly the flattened entry list in order. -/
def IAMRoles.resources (c : IAMRoles) (pages : List (List RoleEntry)) :
    Except PyError (List ListResourcesResponse) :=
  c.resourcesLoop pages.flatten

/-- Whether an entry is kept by the service-linked-role filter, given its
path is present. -/
def keepsPath (p : String) : Bool := !(p.startsWith "/aws-service-role/")

/-- The kept entries of a well-formed entry list. -/
def keptEntries (roles : List RoleEntry) : List RoleEntry :=
  roles.filter (fun role => match role.path with
    | none => false
    | some p => keepsPath p)

/-- On an entry list whose every entry has a `Path`, the enumeration loop
succeeds and returns exactly the kept entries' records, in order. -/
lemma resourcesLoop_eq_keptEntries (c : IAMRoles) (roles : List RoleEntry)
    (h : ∀ r ∈ roles, r.path.isSome) :
    c.resourcesLoop roles = Except.ok ((keptEntries roles).map c.toResponse) := by
  induction roles with
  | nil => rfl
  | cons role rest ih =>
      obtain ⟨p, hp⟩ := Option.isSome_iff_exists.mp (h role (List.mem_cons_self _ _))
      have hrest : ∀ r ∈ rest, r.path.isSome :=
        fun r hr => h r (List.mem_cons_of_mem _ hr)
      by_cases hb : p.startsWith "/aws-service-role/" = true
      · simp [IAMRoles.resourcesLoop, IAMRoles.processRole, hp, hb,
          keptEntries, keepsPath, List.filter_cons, ih hrest]
      · simp [IAMRoles.resourcesLoop, IAMRoles.processRole, hp, hb,
          keptEntries, keepsPath, List.filter_cons, ih hrest]

/-- C1: for every existing policy document with N statements, grant
injection yields a document with exactly N+1 statements; the original N
are unchanged in content and order, and the single new statement is
appended after them. -/
theorem injectGrant_additive (doc : PolicyDocument)
    (evilPrincipal accountIdOfEvil arn : String) :
    (injectGrant doc evilPrincipal accountIdOfEvil arn).policy.statement =
      doc.policy.statement ++
        [newGrantStatement doc evilPrincipal accountIdOfEvil arn] ∧
    (injectGrant doc evilPrincipal accountIdOfEvil arn).policy.statement.length
      = doc.policy.statement.length + 1 ∧
    ((injectGrant doc evilPrincipal accountIdOfEvil arn).policy.statement.take
        doc.policy.statement.length) = doc.policy.statement ∧
    ((injectGrant doc evilPrincipal accountIdOfEvil arn).policy.statement.drop
        doc.policy.statement.length) =
      [newGrantStatement doc evilPrincipal accountIdOfEvil arn] := by
  refine ⟨rfl, ?_, ?_, ?_⟩ <;>
    simp [injectGrant]

/-- C2: the injected statement carries a resource block naming the given
arn exactly when the document's `include_resource_block` flag is true and
no resource block otherwise; `IAMRole.__init__` fixes
`include_resource_block = false` and `override_action = "sts:AssumeRole"`,
so a grant injected into the document `get_rbp` returns for a role has no
resource block and action `sts:AssumeRole`. -/
theorem injected_statement_resource_block (doc : PolicyDocument)
    (e a arn : String) (name region acct : String) (orb : Option String)
    (oaiip : Bool) (op : Policy) (pr : GetRoleResult) (e2 a2 arn2 : String) :
    ((newGrantStatement doc e a arn).resource =
      if doc.include_resource_block then some arn else none) ∧
    (IAMRole.init name region acct orb oaiip op).include_resource_block
      = false ∧
    (IAMRole.init name region acct orb oaiip op).override_action
      = some "sts:AssumeRole" ∧
    (newGrantStatement
        ((IAMRole.init name region acct orb oaiip op).get_rbp pr).2.1.policy_document
        e2 a2 arn2).resource = none ∧
    (newGrantStatement
        ((IAMRole.init name region acct orb oaiip op).get_rbp pr).2.1.policy_document
        e2 a2 arn2).action = "sts:AssumeRole" := by
  refine ⟨rfl, rfl, rfl, ?_, ?_⟩ <;>
    cases pr <;>
      simp [newGrantStatement, IAMRole.init, IAMRole.get_rbp]

/-- C3: `_get_rbp` never propagates a provider error: on the not-found
error it returns the empty policy with `success = false` and logs a
critical event naming the role; on any other client error it returns the
empty policy with `success = false`; and in every case (success included)
the returned policy document holds a concrete, structurally valid policy,
never an absent one — the embedding is a total function into
`ResponseGetRbp`. -/
theorem get_rbp_error_handling (name region acct : String)
    (orb : Option String) (oaiip : Bool) (op : Policy) :
    ((IAMRole.init name region acct orb oaiip op).get_rbp
        GetRoleResult.noSuchEntity).2.1.success = false ∧
    ((IAMRole.init name region acct orb oaiip op).get_rbp
        GetRoleResult.noSuchEntity).2.1.policy_document.policy
      = getEmptyPolicy ∧
    ({ level := LogLevel.critical
       msg := "There is no resource with the name " ++ name } : LogEvent) ∈
      ((IAMRole.init name region acct orb oaiip op).get_rbp
        GetRoleResult.noSuchEntity).2.2 ∧
    (∀ msg : String,
      ((IAMRole.init name region acct orb oaiip op).get_rbp
          (GetRoleResult.clientError msg)).2.1.success = false ∧
      ((IAMRole.init name region acct orb oaiip op).get_rbp
          (GetRoleResult.clientError msg)).2.1.policy_document.policy
        = getEmptyPolicy) ∧
    (∀ pr : GetRoleResult,
      ((IAMRole.init name region acct orb oaiip op).get_rbp pr).2.1.policy_document.policy
        = match pr with
          | GetRoleResult.ok p => p
          | GetRoleResult.noSuchEntity => getEmptyPolicy
          | GetRoleResult.clientError _ => getEmptyPolicy) := by
  refine ⟨rfl, rfl, ?_, fun msg => ⟨rfl, rfl⟩, fun pr => ?_⟩
  · simp [IAMRole.init, IAMRole.get_rbp]
  · cases pr <;> rfl

/-- C4: `set_rbp` returns `success = true` with the fixed sentinel message
`"success"` when the provider accepts the write, and `success = false`
with the provider's error text when it rejects it (no exception: the
embedding is total); in both cases the record carries the instance's
`original_policy` and the attempted `updated_policy`. -/
theorem set_rbp_error_handling (name region acct : String)
    (orb : Option String) (oaiip : Bool) (op evil_policy : Policy) :
    ((IAMRole.init name region acct orb oaiip op).set_rbp evil_policy
        UpdateAssumeRolePolicyResult.ok).2.1.success = true ∧
    ((IAMRole.init name region acct orb oaiip op).set_rbp evil_policy
        UpdateAssumeRolePolicyResult.ok).2.1.message = "success" ∧
    (∀ msg : String,
      ((IAMRole.init name region acct orb oaiip op).set_rbp evil_policy
          (UpdateAssumeRolePolicyResult.clientError msg)).2.1.success = false ∧
      ((IAMRole.init name region acct orb oaiip op).set_rbp evil_policy
          (UpdateAssumeRolePolicyResult.clientError msg)).2.1.message = msg) ∧
    (∀ wr : UpdateAssumeRolePolicyResult,
      ((IAMRole.init name region acct orb oaiip op).set_rbp evil_policy
          wr).2.1.original_policy = op ∧
      ((IAMRole.init name region acct orb oaiip op).set_rbp evil_policy
          wr).2.1.updated_policy = evil_policy) := by
  refine ⟨rfl, rfl, fun msg => ⟨rfl, rfl⟩, fun wr => ?_⟩
  cases wr <;> exact ⟨rfl, rfl⟩

/-- A service-linked role entry, as the provider lists it. -/
def slrEntry : RoleEntry :=
  { path := some "/aws-service-role/org-linked/"
    arn := some "arn:aws:iam::111122223333:role/aws-service-role/org-linked/slr"
    roleName := some "slr" }

/-- An ordinary role entry with path `/`. -/
def plainEntry : RoleEntry :=
  { path := some "/"
    arn := some "arn:aws:iam::111122223333:role/deploy-role"
    roleName := some "deploy-role" }

/-- C5: in any well-formed enumeration run, an entry is kept exactly when
its path does not start with `/aws-service-role/`, and the returned list is
the kept entries' records. -/
theorem resources_excludes_service_linked (acct region : String)
    (pages : List (List RoleEntry)) (role : RoleEntry) (p : String)
    (h : ∀ r ∈ pages.flatten, r.path.isSome)
    (hmem : role ∈ pages.flatten) (hp : role.path = some p) :
    (role ∈ keptEntries pages.flatten ↔
      p.startsWith "/aws-service-role/" = false) ∧
    (IAMRoles.init acct region).resources pages =
      Except.ok ((keptEntries pages.flatten).map
        (IAMRoles.init acct region).toResponse) := by
  refine ⟨?_, resourcesLoop_eq_keptEntries _ _ h⟩
  unfold keptEntries
  rw [List.mem_filter]
  simp [hmem, hp, keepsPath]

/-- C5 witness: the service-linked entry with path
`/aws-service-role/org-linked/` is excluded while the otherwise ordinary
entry with path `/` is included. -/
theorem resources_excludes_service_linked_witness :
    ((slrEntry ∈ keptEntries ([[slrEntry, plainEntry]] :
          List (List RoleEntry)).flatten ↔
        String.startsWith "/aws-service-role/org-linked/" "/aws-service-role/"
          = false) ∧
      (IAMRoles.init "111122223333" "us-east-1").resources
          [[slrEntry, plainEntry]] =
        Except.ok ((keptEntries ([[slrEntry, plainEntry]] :
            List (List RoleEntry)).flatten).map
          (IAMRoles.init "111122223333" "us-east-1").toResponse)) ∧
    ((plainEntry ∈ keptEntries ([[slrEntry, plainEntry]] :
          List (List RoleEntry)).flatten ↔
        String.startsWith "/" "/aws-service-role/" = false) ∧
      (IAMRoles.init "111122223333" "us-east-1").resources
          [[slrEntry, plainEntry]] =
        Except.ok ((keptEntries ([[slrEntry, plainEntry]] :
            List (List RoleEntry)).flatten).map
          (IAMRoles.init "111122223333" "us-east-1").toResponse)) :=
  ⟨resources_excludes_service_linked "111122223333" "us-east-1"
      [[slrEntry, plainEntry]] slrEntry "/aws-service-role/org-linked/"
      (by simp [slrEntry, plainEntry]) (by simp) rfl,
   resources_excludes_service_linked "111122223333" "us-east-1"
      [[slrEntry, plainEntry]] plainEntry "/"
      (by simp [slrEntry, plainEntry]) (by simp) rfl⟩

/-- C6: over any pages whose entries are all well-formed, enumeration
returns exactly the kept entries' records in order: the result length plus
the number of filtered-out entries equals the total role count summed over
the pages; distinct listed arns give a duplicate-free result; and the
result depends only on the concatenation of the pages, not on where the
page boundaries fall. -/
theorem resources_pagination (acct region : String)
    (pages : List (List RoleEntry))
    (h : ∀ r ∈ pages.flatten, r.path.isSome) :
    (IAMRoles.init acct region).resources pages =
      Except.ok ((keptEntries pages.flatten).map
        (IAMRoles.init acct region).toResponse) ∧
    ((keptEntries pages.flatten).map
        (IAMRoles.init acct region).toResponse).length +
      (pages.flatten.length - (keptEntries pages.flatten).length) =
      (pages.map List.length).sum ∧
    ((pages.flatten.map RoleEntry.arn).Nodup →
      ((keptEntries pages.flatten).map
        (IAMRoles.init acct region).toResponse).Nodup) ∧
    (∀ pages2 : List (List RoleEntry), pages.flatten = pages2.flatten →
      (IAMRoles.init acct region).resources pages =
        (IAMRoles.init acct region).resources pages2) := by
  refine ⟨resourcesLoop_eq_keptEntries _ _ h, ?_, ?_, ?_⟩
  · have hsub : (keptEntries pages.flatten).length ≤ pages.flatten.length :=
      List.length_filter_le _ _
    rw [List.length_map, ← List.length_flatten]
    omega
  · intro hnd
    have hkept : ((keptEntries pages.flatten).map RoleEntry.arn).Nodup :=
      List.Nodup.sublist (List.Sublist.map _ (List.filter_sublist _)) hnd
    have heq : (keptEntries pages.flatten).map RoleEntry.arn =
        ((keptEntries pages.flatten).map
          (IAMRoles.init acct region).toResponse).map
            ListResourcesResponse.arn := by
      rw [List.map_map]
      rfl
    rw [heq] at hkept
    exact List.Nodup.of_map _ hkept
  · intro pages2 he
    unfold IAMRoles.resources
    rw [he]

/-- C6 witness: a two-page run with one ordinary and one service-linked
entry. -/
theorem resources_pagination_witness :
    ((IAMRoles.init "111122223333" "us-east-1").resources
        [[plainEntry], [slrEntry]] =
      Except.ok ((keptEntries ([[plainEntry], [slrEntry]] :
          List (List RoleEntry)).flatten).map
        (IAMRoles.init "111122223333" "us-east-1").toResponse)) ∧
    (((keptEntries ([[plainEntry], [slrEntry]] :
          List (List RoleEntry)).flatten).map
        (IAMRoles.init "111122223333" "us-east-1").toResponse).length +
      (([[plainEntry], [slrEntry]] :
          List (List RoleEntry)).flatten.length -
        (keptEntries ([[plainEntry], [slrEntry]] :
          List (List RoleEntry)).flatten).length) =
      (([[plainEntry], [slrEntry]] :
          List (List RoleEntry)).map List.length).sum) ∧
    ((([[plainEntry], [slrEntry]] :
          List (List RoleEntry)).flatten.map RoleEntry.arn).Nodup →
      ((keptEntries ([[plainEntry], [slrEntry]] :
          List (List RoleEntry)).flatten).map
        (IAMRoles.init "111122223333" "us-east-1").toResponse).Nodup) ∧
    (∀ pages2 : List (List RoleEntry),
      ([[plainEntry], [slrEntry]] :
          List (List RoleEntry)).flatten = pages2.flatten →
      (IAMRoles.init "111122223333" "us-east-1").resources
          [[plainEntry], [slrEntry]] =
        (IAMRoles.init "111122223333" "us-east-1").resources pages2) :=
  resources_pagination "111122223333" "us-east-1" [[plainEntry], [slrEntry]]
    (by simp [plainEntry, slrEntry])

/-- C7: the claim that a malformed listed entry is skipped fails on the
code: an entry whose dictionary has no `Path` key makes
`path.startswith(...)` raise `AttributeError` (here `PyError.attributeError`),
aborting the whole enumeration instead of returning the remaining
well-formed entry. -/
theorem resources_error_on_malformed_entry :
    (IAMRoles.init "111122223333" "us-east-1").resources
      [[{ path := none
          arn := some "arn:aws:iam::111122223333:role/broken"
          roleName := some "broken" },
        plainEntry]] = Except.error PyError.attributeError := rfl

/-- C8: the four behavioral flags are fixed by construction
(`include_resource_block = false` and
`override_action = "sts:AssumeRole"` for the role kind, the other two as
the parent supplied them); `get_rbp` and `set_rbp` return the instance
state unchanged; and the `PolicyDocument` that `get_rbp` returns carries
exactly the instance's flag values. -/
theorem flags_fixed_at_construction (name region acct : String)
    (orb : Option String) (oaiip : Bool) (op ep : Policy)
    (pr : GetRoleResult) (wr : UpdateAssumeRolePolicyResult) :
    (IAMRole.init name region acct orb oaiip op).include_resource_block
      = false ∧
    (IAMRole.init name region acct orb oaiip op).override_action
      = some "sts:AssumeRole" ∧
    (IAMRole.init name region acct orb oaiip op).override_resource_block
      = orb ∧
    (IAMRole.init name region acct orb oaiip
        op).override_account_id_instead_of_principal = oaiip ∧
    ((IAMRole.init name region acct orb oaiip op).get_rbp pr).1
      = IAMRole.init name region acct orb oaiip op ∧
    ((IAMRole.init name region acct orb oaiip op).set_rbp ep wr).1
      = IAMRole.init name region acct orb oaiip op ∧
    ((IAMRole.init name region acct orb oaiip
        op).get_rbp pr).2.1.policy_document.include_resource_block
      = (IAMRole.init name region acct orb oaiip op).include_resource_block ∧
    ((IAMRole.init name region acct orb oaiip
        op).get_rbp pr).2.1.policy_document.override_action
      = (IAMRole.init name region acct orb oaiip op).override_action ∧
    ((IAMRole.init name region acct orb oaiip
        op).get_rbp pr).2.1.policy_document.override_resource_block
      = (IAMRole.init name region acct orb oaiip op).override_resource_block ∧
    ((IAMRole.init name region acct orb oaiip
        op).get_rbp pr).2.1.policy_document.override_account_id_instead_of_principal
      = (IAMRole.init name region acct orb oaiip
          op).override_account_id_instead_of_principal := by
  cases pr <;> cases wr <;>
    exact ⟨rfl, rfl, rfl, rfl, rfl, rfl, rfl, rfl, rfl, rfl⟩

/-- C9 counterexample: injecting a grant for the evil principal
`arn:aws:iam::999988887777:root` and writing it back returns a
`ResponseMessage` whose `evil_principal` field is the empty string, not
the principal that the written policy's appended statement names. -/
theorem set_rbp_evil_principal_not_recorded :
    ((IAMRole.init "deploy-role" "us-east-1" "111122223333" none false
        getEmptyPolicy).set_rbp
      (injectGrant
        ((IAMRole.init "deploy-role" "us-east-1" "111122223333" none false
            getEmptyPolicy).get_rbp
          (GetRoleResult.ok getEmptyPolicy)).2.1.policy_document
        "arn:aws:iam::999988887777:root" "999988887777"
        (IAMRole.init "deploy-role" "us-east-1" "111122223333" none false
            getEmptyPolicy).arn).policy
      UpdateAssumeRolePolicyResult.ok).2.1.evil_principal = "" ∧
    (∃ s ∈ ((IAMRole.init "deploy-role" "us-east-1" "111122223333" none false
        getEmptyPolicy).set_rbp
      (injectGrant
        ((IAMRole.init "deploy-role" "us-east-1" "111122223333" none false
            getEmptyPolicy).get_rbp
          (GetRoleResult.ok getEmptyPolicy)).2.1.policy_document
        "arn:aws:iam::999988887777:root" "999988887777"
        (IAMRole.init "deploy-role" "us-east-1" "111122223333" none false
            getEmptyPolicy).arn).policy
      UpdateAssumeRolePolicyResult.ok).2.1.updated_policy.statement,
      s.principal = "arn:aws:iam::999988887777:root") ∧
    ("" : String) ≠ "arn:aws:iam::999988887777:root" := by
  refine ⟨rfl, ?_, by decide⟩
  refine ⟨_, List.mem_singleton_self _, rfl⟩

/-- C9 (amended): every `ResponseMessage` returned by `set_rbp` has
`evil_principal` equal to the empty string — the injected principal is
never recorded in that field, only inside `updated_policy`. -/
theorem set_rbp_evil_principal_empty (name region acct : String)
    (orb : Option String) (oaiip : Bool) (op ep : Policy)
    (wr : UpdateAssumeRolePolicyResult) :
    ((IAMRole.init name region acct orb oaiip op).set_rbp ep
        wr).2.1.evil_principal = "" := by
  cases wr <;> rfl

/-- An entry whose own Arn names a different account than the catalog's. -/
def foreignArnEntry : RoleEntry :=
  { path := some "/"
    arn := some "arn:aws:iam::999999999999:role/ext"
    roleName := some "ext" }

/-- C10: every record enumeration returns takes `account_id` and `region`
from the catalog object and `arn` and `name` verbatim from some listed
entry — so the recorded account is the catalog's regardless of which
account the entry's own Arn names. -/
theorem resources_account_region_from_catalog (acct region : String)
    (pages : List (List RoleEntry))
    (h : ∀ r ∈ pages.flatten, r.path.isSome)
    (out : List ListResourcesResponse)
    (hout : (IAMRoles.init acct region).resources pages = Except.ok out) :
    ∀ x ∈ out, x.account_id = acct ∧ x.region = region ∧
      ∃ role ∈ pages.flatten, x.arn = role.arn ∧ x.name = role.roleName := by
  have key := resourcesLoop_eq_keptEntries (IAMRoles.init acct region)
    pages.flatten h
  rw [IAMRoles.resources, key] at hout
  injection hout with hout
  subst hout
  intro x hx
  rw [List.mem_map] at hx
  obtain ⟨role, hrole, rfl⟩ := hx
  exact ⟨rfl, rfl, role, List.mem_of_mem_filter hrole, rfl, rfl⟩

/-- C10 witness: the catalog is for account `111122223333`, the sole listed
entry's Arn names account `999999999999`; the record still carries the
catalog's account and region. -/
theorem resources_account_region_from_catalog_witness :
    ((IAMRoles.init "111122223333" "us-east-1").toResponse
        foreignArnEntry).account_id = "111122223333" ∧
    ((IAMRoles.init "111122223333" "us-east-1").toResponse
        foreignArnEntry).region = "us-east-1" ∧
    ∃ role ∈ ([[foreignArnEntry]] : List (List RoleEntry)).flatten,
      ((IAMRoles.init "111122223333" "us-east-1").toResponse
          foreignArnEntry).arn = role.arn ∧
      ((IAMRoles.init "111122223333" "us-east-1").toResponse
          foreignArnEntry).name = role.roleName :=
  resources_account_region_from_catalog "111122223333" "us-east-1"
    [[foreignArnEntry]] (by simp [foreignArnEntry])
    [(IAMRoles.init "111122223333" "us-east-1").toResponse foreignArnEntry]
    rfl
    ((IAMRoles.init "111122223333" "us-east-1").toResponse foreignArnEntry)
    (List.mem_singleton_self _)
